import Mathlib

/-! Shallow embedding of the finance-control repository's data layer
(`src/database.py`, class `DatabaseManager` over SQLite) and of the
aggregation / goal-progress arithmetic of `src/app.py`.

Modelling choices:
* A SQLite table is a list of rows in rowid (= insertion) order.
* The `AUTOINCREMENT` next-id counters (SQLite's `sqlite_sequence`) are
  carried in the state; per SQLite semantics they are not reset by
  `DELETE FROM`, so ids are never reused.
* Monetary values (`REAL` columns) are modelled as rationals `ℚ` and
  calendar dates as integers (day numbers): the code only ever adds,
  divides and compares them.
* SQLite's `ORDER BY` sorter tags each incoming row with a sequence
  counter and compares `(key, sequence)`, so rows with equal keys come
  out in scan order; `sqlSort` models exactly this.
* The Python methods report success as a boolean (`True`) instead of
  raising domain errors (there is no `ValidationError`/`NotFoundError`
  anywhere in `src/database.py`); they are modelled as functions
  returning `Bool × DBState` (or `Nat × DBState` for the inserts, whose
  result is `lastrowid`).
* pandas' NaN result for the mean of an empty column is modelled as
  `Option.none`. -/

/-- A row of the `receitas` or `despesas` table of `src/database.py`
(columns `id, data, descricao, valor, categoria`; the `created_at` and
`updated_at` timestamp columns are not modelled, no claim depends on
them). The CSV-backed frames of `src/app.py` share this shape (minus
`id`, which the dashboard addresses positionally). -/
structure Transacao where
  id : Nat
  data : Int
  descricao : String
  valor : ℚ
  categoria : String
deriving DecidableEq, Repr

/-- A row of the `metas` table of `src/database.py`
(columns `id, data_limite, descricao, valor_meta, categoria, status`;
`status` has SQL default `'ativa'`). -/
structure Meta where
  id : Nat
  data_limite : Int
  descricao : String
  valor_meta : ℚ
  categoria : String
  status : String
deriving DecidableEq, Repr

/-- The persisted SQLite state: three tables in rowid order plus the
`AUTOINCREMENT` counters (largest id ever assigned per table). -/
structure DBState where
  receitas : List Transacao
  despesas : List Transacao
  metas : List Meta
  seqReceitas : Nat
  seqDespesas : Nat
  seqMetas : Nat
deriving DecidableEq, Repr

/-- Invariant of every reachable database state: each table is in id
ascending order (rowid order) and the table's AUTOINCREMENT counter
bounds every id stored in it. -/
def InvEstado (s : DBState) : Prop :=
  s.receitas.Pairwise (fun a b => a.id < b.id) ∧
  (∀ r ∈ s.receitas, r.id ≤ s.seqReceitas) ∧
  s.despesas.Pairwise (fun a b => a.id < b.id) ∧
  (∀ r ∈ s.despesas, r.id ≤ s.seqDespesas) ∧
  s.metas.Pairwise (fun a b => a.id < b.id) ∧
  (∀ m ∈ s.metas, m.id ≤ s.seqMetas)

instance (s : DBState) : Decidable (InvEstado s) := by
  unfold InvEstado
  infer_instance

/-- `DatabaseManager.adicionar_receita` (src/database.py:157-176):
`INSERT INTO receitas (data, descricao, valor, categoria) VALUES (?,?,?,?)`
through `_execute_insert`, returning `cursor.lastrowid`. SQLite assigns
id `seq + 1` and bumps the sequence. No field validation is performed. -/
def adicionar_receita (s : DBState) (d : Int) (de : String) (v : ℚ)
    (c : String) : Nat × DBState :=
  let rid := s.seqReceitas + 1
  (rid, { s with
            receitas := s.receitas ++ [⟨rid, d, de, v, c⟩],
            seqReceitas := rid })

/-- `DatabaseManager.adicionar_despesa` (src/database.py:273-292), same
shape as `adicionar_receita` over the `despesas` table. -/
def adicionar_despesa (s : DBState) (d : Int) (de : String) (v : ℚ)
    (c : String) : Nat × DBState :=
  let rid := s.seqDespesas + 1
  (rid, { s with
            despesas := s.despesas ++ [⟨rid, d, de, v, c⟩],
            seqDespesas := rid })

/-- `DatabaseManager.adicionar_meta` (src/database.py:389-408): inserts
`(data_limite, descricao, valor_meta, categoria)`; the `status` column
takes its SQL default `'ativa'`. No field validation is performed. -/
def adicionar_meta (s : DBState) (d : Int) (de : String) (v : ℚ)
    (c : String) : Nat × DBState :=
  let mid := s.seqMetas + 1
  (mid, { s with
            metas := s.metas ++ [⟨mid, d, de, v, c, "ativa"⟩],
            seqMetas := mid })

/-- `DatabaseManager.excluir_receita` (src/database.py:224-240):
`DELETE FROM receitas WHERE id = ?`; deleting zero rows is not an error,
the method returns `True` whenever the statement executes. -/
def excluir_receita (s : DBState) (rid : Nat) : Bool × DBState :=
  (true, { s with receitas := s.receitas.filter (fun r => r.id ≠ rid) })

/-- `DatabaseManager.excluir_despesa` (src/database.py:340-356). -/
def excluir_despesa (s : DBState) (rid : Nat) : Bool × DBState :=
  (true, { s with despesas := s.despesas.filter (fun r => r.id ≠ rid) })

/-- `DatabaseManager.excluir_meta` (src/database.py:450-466). -/
def excluir_meta (s : DBState) (mid : Nat) : Bool × DBState :=
  (true, { s with metas := s.metas.filter (fun m => m.id ≠ mid) })

/-- `DatabaseManager.atualizar_receita` (src/database.py:242-270):
`UPDATE receitas SET ... WHERE id = ?`; rows with a matching id receive
the new field values, others are untouched; the method returns `True`
regardless of how many rows matched. -/
def atualizar_receita (s : DBState) (rid : Nat) (d : Int) (de : String)
    (v : ℚ) (c : String) : Bool × DBState :=
  (true, { s with receitas := s.receitas.map (fun r =>
      if r.id = rid then
        { r with data := d, descricao := de, valor := v, categoria := c }
      else r) })

/-- The optional date-range filter the queries build
(`AND data >= ?` / `AND data <= ?`, equivalently `BETWEEN ? AND ?`). -/
def filtroData (di df : Option Int) (d : Int) : Bool :=
  (match di with | some a => decide (a ≤ d) | none => true) &&
  (match df with | some b => decide (d ≤ b) | none => true)

/-- Tag every element of a list with its position: the sequence counter
SQLite's sorter attaches to incoming rows. -/
def tagIdx : Nat → List α → List (α × Nat)
  | _, [] => []
  | n, a :: as => (a, n) :: tagIdx (n + 1) as

/-- Lexicographic comparison on `(key, sequence)` used by the sorter. -/
def tagLe (le : α → α → Bool) (p q : α × Nat) : Bool :=
  le p.1 q.1 && (!le q.1 p.1 || decide (p.2 ≤ q.2))

/-- Ordered insertion of one element into a list. -/
def insOrd (le : α → α → Bool) (a : α) : List α → List α
  | [] => [a]
  | b :: bs => if le a b then a :: b :: bs else b :: insOrd le a bs

/-- Sorting by repeated ordered insertion. On a relation that is total,
transitive and antisymmetric (as `tagLe le` is on distinct sequence
numbers) every correct sort produces the same output, so this models any
comparison sorter, in particular SQLite's. -/
def ordena (le : α → α → Bool) : List α → List α
  | [] => []
  | a :: as => insOrd le a (ordena le as)

/-- SQLite's `ORDER BY` sorter: rows arrive in scan order, each tagged
with a sequence number; the sorter orders by `(key, sequence)`, so rows
with equal keys come out in scan order (a stable sort). -/
def sqlSort (le : α → α → Bool) (l : List α) : List α :=
  (ordena (tagLe le) (tagIdx 0 l)).map Prod.fst

/-- `DatabaseManager.obter_receitas` (src/database.py:178-222):
`SELECT * FROM receitas WHERE 1=1 [AND data >= ?] [AND data <= ?]
[AND categoria = ?] ORDER BY data DESC`. -/
def obter_receitas (s : DBState) (data_inicio data_fim : Option Int)
    (categoria : Option String) : List Transacao :=
  sqlSort (fun a b => decide (b.data ≤ a.data))
    (s.receitas.filter (fun r =>
      filtroData data_inicio data_fim r.data &&
      (match categoria with | some c => decide (r.categoria = c) | none => true)))

/-- `DatabaseManager.obter_despesas` (src/database.py:294-338), same
query shape over the `despesas` table. -/
def obter_despesas (s : DBState) (data_inicio data_fim : Option Int)
    (categoria : Option String) : List Transacao :=
  sqlSort (fun a b => decide (b.data ≤ a.data))
    (s.despesas.filter (fun r =>
      filtroData data_inicio data_fim r.data &&
      (match categoria with | some c => decide (r.categoria = c) | none => true)))

/-- `DatabaseManager.obter_metas` (src/database.py:410-448):
`SELECT * FROM metas WHERE 1=1 [AND status = ?] [AND categoria = ?]
ORDER BY data_limite ASC`. -/
def obter_metas (s : DBState) (status categoria : Option String) :
    List Meta :=
  sqlSort (fun a b => decide (a.data_limite ≤ b.data_limite))
    (s.metas.filter (fun m =>
      (match status with | some st => decide (m.status = st) | none => true) &&
      (match categoria with | some c => decide (m.categoria = c) | none => true)))

/-- Sum of the `valor` column: `SELECT SUM(valor)` with the
`if result ... else 0` guard of `obter_estatisticas_gerais`
(src/database.py:535-545), equally app.py's
`df['valor'].sum() if not df.empty else 0` (src/app.py:74-83). -/
def total_valores (rs : List Transacao) : ℚ :=
  if rs.isEmpty then 0 else (rs.map (·.valor)).sum

/-- `df['valor'].mean()` (src/app.py:283-288): pandas returns the
arithmetic mean for a non-empty column and the NaN sentinel for an empty
one, without raising; NaN is modelled as `none`. -/
def media_valores (rs : List Transacao) : Option ℚ :=
  if rs.isEmpty then none else some ((rs.map (·.valor)).sum / rs.length)

/-- The expense-to-income percentage
(src/database.py:550-552 and src/app.py:89-94):
`total_despesas / total_receitas * 100` when `total_receitas > 0`,
otherwise `0`. -/
def percentual_despesas (total_despesas total_receitas : ℚ) : ℚ :=
  if total_receitas > 0 then total_despesas / total_receitas * 100 else 0

/-- Distinct values of the `categoria` column in ascending order: SQLite
evaluates `GROUP BY categoria` (no index exists) through a temporary
b-tree keyed on `categoria`, producing one group per distinct category in
ascending category order. -/
def categoriasDistintas (rs : List Transacao) : List String :=
  ordena (fun a b => decide (a ≤ b)) ((rs.map (·.categoria)).dedup)

/-- `SELECT categoria, SUM(valor) as total, COUNT(*) as quantidade FROM …
GROUP BY categoria ORDER BY total DESC` — the shared body of
`obter_despesas_por_categoria` and `obter_receitas_por_categoria`
(src/database.py:578-658). A bucket is `(categoria, total, quantidade)`. -/
def por_categoria (rs : List Transacao) : List (String × ℚ × Nat) :=
  sqlSort (fun a b => decide (b.2.1 ≤ a.2.1))
    ((categoriasDistintas rs).map (fun c =>
      (c, ((rs.filter (fun r => r.categoria = c)).map (·.valor)).sum,
          (rs.filter (fun r => r.categoria = c)).length)))

/-- `DatabaseManager.obter_despesas_por_categoria`
(src/database.py:578-617). -/
def obter_despesas_por_categoria (s : DBState) (di df : Option Int) :
    List (String × ℚ × Nat) :=
  por_categoria (s.despesas.filter (fun r => filtroData di df r.data))

/-- `DatabaseManager.obter_receitas_por_categoria`
(src/database.py:619-658). -/
def obter_receitas_por_categoria (s : DBState) (di df : Option Int) :
    List (String × ℚ × Nat) :=
  por_categoria (s.receitas.filter (fun r => filtroData di df r.data))

/-- `economias` of a goal (src/app.py:456-474): income with
`data <= data_meta` minus expenses with `data <= data_meta`. -/
def economias (receitas despesas : List Transacao) (data_meta : Int) : ℚ :=
  total_valores (receitas.filter (fun r => decide (r.data ≤ data_meta))) -
  total_valores (despesas.filter (fun r => decide (r.data ≤ data_meta)))

/-- Goal progress (src/app.py:475):
`min((economias / meta['valor']) * 100, 100) if meta['valor'] > 0 else 0`. -/
def progresso (receitas despesas : List Transacao) (data_meta : Int)
    (valor_meta : ℚ) : ℚ :=
  if valor_meta > 0 then
    min (economias receitas despesas data_meta / valor_meta * 100) 100
  else 0

/-- `DatabaseManager.exportar_dados` (src/database.py:661-672): the three
unfiltered query results (`obter_receitas()`, `obter_despesas()`,
`obter_metas()`). -/
def exportar_dados (s : DBState) :
    List Transacao × List Transacao × List Meta :=
  (obter_receitas s none none none, obter_despesas s none none none,
   obter_metas s none none)

/-- The individual SQL statements `importar_dados` issues, in order:
three `DELETE FROM` statements, then one `adicionar_*` insert per
dataset row (each insert carries only the four non-id, non-status
columns the code reads from the row). -/
inductive ImportOp where
  | delReceitas : ImportOp
  | delDespesas : ImportOp
  | delMetas : ImportOp
  | insReceita (d : Int) (de : String) (v : ℚ) (c : String) : ImportOp
  | insDespesa (d : Int) (de : String) (v : ℚ) (c : String) : ImportOp
  | insMeta (d : Int) (de : String) (v : ℚ) (c : String) : ImportOp
deriving DecidableEq, Repr

/-- Effect of one statement. Each statement runs in its own connection
and commits before returning (`_execute_query` / `_execute_insert`,
src/database.py:99-154), so its effect is persisted immediately. -/
def aplicarOp (s : DBState) : ImportOp → DBState
  | .delReceitas => { s with receitas := [] }
  | .delDespesas => { s with despesas := [] }
  | .delMetas => { s with metas := [] }
  | .insReceita d de v c => (adicionar_receita s d de v c).2
  | .insDespesa d de v c => (adicionar_despesa s d de v c).2
  | .insMeta d de v c => (adicionar_meta s d de v c).2

/-- Run a statement sequence with no failure. -/
def runOps : DBState → List ImportOp → DBState
  | s, [] => s
  | s, op :: ops => runOps (aplicarOp s op) ops

/-- Run a statement sequence where the statement at position `failAt`
raises a storage error: every earlier statement has already committed,
the failing one has no effect, and the surrounding
`except: return False` handler reports failure. -/
def runOpsFI : DBState → Nat → List ImportOp → Bool × DBState
  | s, _, [] => (true, s)
  | s, 0, _ :: _ => (false, s)
  | s, k + 1, op :: ops => runOpsFI (aplicarOp s op) k ops

/-- The statement sequence of `DatabaseManager.importar_dados`
(src/database.py:674-718): clear the three tables, then re-add every
dataset row through `adicionar_receita` / `adicionar_despesa` /
`adicionar_meta` (which read only `data`/`data_limite`, `descricao`,
`valor`/`valor_meta`, `categoria` from each row). -/
def importPlan (dados : List Transacao × List Transacao × List Meta) :
    List ImportOp :=
  [ImportOp.delReceitas, ImportOp.delDespesas, ImportOp.delMetas] ++
  dados.1.map (fun r => ImportOp.insReceita r.data r.descricao r.valor r.categoria) ++
  dados.2.1.map (fun r => ImportOp.insDespesa r.data r.descricao r.valor r.categoria) ++
  dados.2.2.map (fun m => ImportOp.insMeta m.data_limite m.descricao m.valor_meta m.categoria)

/-- `DatabaseManager.importar_dados` without storage failure: executes
the whole plan and returns `True`. -/
def importar_dados (s : DBState)
    (dados : List Transacao × List Transacao × List Meta) :
    Bool × DBState :=
  (true, runOps s (importPlan dados))

/-- `DatabaseManager.importar_dados` with a storage error injected at
statement position `failAt` of its plan. -/
def importar_dadosFI (failAt : Nat) (s : DBState)
    (dados : List Transacao × List Transacao × List Meta) :
    Bool × DBState :=
  runOpsFI s failAt (importPlan dados)

/-- The four columns of a transaction row that survive an export/import
round trip (everything except `id` and the timestamps). -/
def projT (r : Transacao) : Int × String × ℚ × String :=
  (r.data, r.descricao, r.valor, r.categoria)

/-- The four columns of a goal row that survive an export/import round
trip (everything except `id`, `status` and the timestamps). -/
def projM (m : Meta) : Int × String × ℚ × String :=
  (m.data_limite, m.descricao, m.valor_meta, m.categoria)

/-- The transaction rows produced by re-adding `rs` one by one starting
from AUTOINCREMENT counter `n`. -/
def novasReceitas : Nat → List Transacao → List Transacao
  | _, [] => []
  | n, r :: rs =>
    ⟨n + 1, r.data, r.descricao, r.valor, r.categoria⟩ ::
      novasReceitas (n + 1) rs

/-- The goal rows produced by re-adding `ms` one by one starting from
AUTOINCREMENT counter `n`; every one gets the default status `'ativa'`. -/
def novasMetas : Nat → List Meta → List Meta
  | _, [] => []
  | n, m :: ms =>
    ⟨n + 1, m.data_limite, m.descricao, m.valor_meta, m.categoria, "ativa"⟩ ::
      novasMetas (n + 1) ms


/-! Concrete example data used by the witness theorems. -/

/-- Example income row (the spec's §8 scenario: 5000 on day 10). -/
def rExemplo : Transacao := ⟨1, 10, "Salario", 5000, "Salario"⟩

/-- Example expense row (the spec's §8 scenario: 1200 on day 32). -/
def dExemplo : Transacao := ⟨1, 32, "Aluguel", 1200, "Moradia"⟩

/-- Example database state satisfying `InvEstado`, with a goal whose
status is not the default. -/
def sExemplo : DBState :=
  ⟨[rExemplo], [dExemplo], [⟨1, 60, "Viagem", 4000, "Viagem", "concluida"⟩],
   1, 1, 1⟩

/-- The empty database state (fresh database after `_create_tables`). -/
def sVazio : DBState := ⟨[], [], [], 0, 0, 0⟩


/-! Lemmas about the sequence-tagged sorter `sqlSort`. -/

theorem tagIdx_map_fst : ∀ (n : Nat) (l : List α), (tagIdx n l).map Prod.fst = l
  | _, [] => rfl
  | n, a :: as => by simp [tagIdx, tagIdx_map_fst (n + 1) as]

theorem tagIdx_le_snd {n : Nat} {l : List α} {p : α × Nat}
    (h : p ∈ tagIdx n l) : n ≤ p.2 := by
  induction l generalizing n with
  | nil => simp [tagIdx] at h
  | cons a as ih =>
    simp only [tagIdx, List.mem_cons] at h
    rcases h with h | h
    · subst h; exact Nat.le_refl n
    · exact Nat.le_of_succ_le (ih h)

theorem tagIdx_fst_mem {n : Nat} {l : List α} {p : α × Nat}
    (h : p ∈ tagIdx n l) : p.1 ∈ l := by
  have h2 := List.mem_map_of_mem Prod.fst h
  rwa [tagIdx_map_fst] at h2

theorem tagIdx_snd_lt (l : List α) :
    ∀ n, (tagIdx n l).Pairwise (fun p q => p.2 < q.2) := by
  induction l with
  | nil => intro n; simp [tagIdx]
  | cons a as ih =>
    intro n
    refine List.Pairwise.cons ?_ (ih (n + 1))
    intro q hq
    exact Nat.lt_of_lt_of_le (Nat.lt_succ_self n) (tagIdx_le_snd hq)

theorem tagIdx_mem_rel {R : α → α → Prop} {l : List α} (hR : l.Pairwise R) :
    ∀ n, ∀ p ∈ tagIdx n l, ∀ q ∈ tagIdx n l, p.2 < q.2 → R p.1 q.1 := by
  induction l with
  | nil => intro n p hp; simp [tagIdx] at hp
  | cons a as ih =>
    intro n p hp q hq hlt
    rcases List.pairwise_cons.mp hR with ⟨ha, has⟩
    simp only [tagIdx, List.mem_cons] at hp hq
    rcases hp with hp | hp
    · rcases hq with hq | hq
      · subst hp; subst hq; exact absurd hlt (lt_irrefl _)
      · subst hp; exact ha q.1 (tagIdx_fst_mem hq)
    · rcases hq with hq | hq
      · subst hq
        exact absurd hlt
          (Nat.not_lt.mpr (Nat.le_of_succ_le (tagIdx_le_snd hp)))
      · exact ih has (n + 1) p hp q hq hlt

theorem tagLe_trans {le : α → α → Bool}
    (htrans : ∀ a b c, le a b = true → le b c = true → le a c = true) :
    ∀ p q r : α × Nat,
      tagLe le p q = true → tagLe le q r = true → tagLe le p r = true := by
  intro p q r hpq hqr
  simp only [tagLe, Bool.and_eq_true, Bool.or_eq_true, Bool.not_eq_true',
    decide_eq_true_eq] at hpq hqr ⊢
  obtain ⟨hpq1, hpq2⟩ := hpq
  obtain ⟨hqr1, hqr2⟩ := hqr
  refine ⟨htrans _ _ _ hpq1 hqr1, ?_⟩
  by_cases hrp : le r.1 p.1 = true
  · have hqp : le q.1 p.1 = true := htrans _ _ _ hqr1 hrp
    have hrq : le r.1 q.1 = true := htrans _ _ _ hrp hpq1
    rcases hpq2 with h | h
    · rw [hqp] at h; cases h
    · rcases hqr2 with h2 | h2
      · rw [hrq] at h2; cases h2
      · exact Or.inr (Nat.le_trans h h2)
  · exact Or.inl (by simpa using hrp)

theorem tagLe_total {le : α → α → Bool}
    (htot : ∀ a b, le a b = true ∨ le b a = true) :
    ∀ p q : α × Nat, tagLe le p q = true ∨ tagLe le q p = true := by
  intro p q
  simp only [tagLe, Bool.and_eq_true, Bool.or_eq_true, Bool.not_eq_true',
    decide_eq_true_eq]
  rcases htot p.1 q.1 with h | h
  · by_cases h2 : le q.1 p.1 = true
    · rcases Nat.le_total p.2 q.2 with hle | hle
      · exact Or.inl ⟨h, Or.inr hle⟩
      · exact Or.inr ⟨h2, Or.inr hle⟩
    · exact Or.inl ⟨h, Or.inl (by simpa using h2)⟩
  · by_cases h2 : le p.1 q.1 = true
    · rcases Nat.le_total p.2 q.2 with hle | hle
      · exact Or.inl ⟨h2, Or.inr hle⟩
      · exact Or.inr ⟨h, Or.inr hle⟩
    · exact Or.inr ⟨h, Or.inl (by simpa using h2)⟩

theorem insOrd_perm (le : α → α → Bool) (a : α) :
    ∀ l : List α, List.Perm (insOrd le a l) (a :: l)
  | [] => List.Perm.refl _
  | b :: bs => by
    unfold insOrd
    by_cases h : le a b = true
    · rw [if_pos h]
    · rw [if_neg h]
      exact ((insOrd_perm le a bs).cons b).trans (List.Perm.swap a b bs)

theorem ordena_perm (le : α → α → Bool) :
    ∀ l : List α, List.Perm (ordena le l) l
  | [] => List.Perm.refl _
  | a :: as => (insOrd_perm le a (ordena le as)).trans
      ((ordena_perm le as).cons a)

theorem insOrd_pairwise {le : α → α → Bool}
    (htrans : ∀ a b c, le a b = true → le b c = true → le a c = true)
    (htot : ∀ a b, le a b = true ∨ le b a = true)
    (a : α) {l : List α} (hl : l.Pairwise (fun x y => le x y = true)) :
    (insOrd le a l).Pairwise (fun x y => le x y = true) := by
  induction l with
  | nil => simp [insOrd]
  | cons b bs ih =>
    rcases List.pairwise_cons.mp hl with ⟨hb, hbs⟩
    unfold insOrd
    by_cases h : le a b = true
    · rw [if_pos h]
      refine List.Pairwise.cons ?_ hl
      intro x hx
      rcases List.mem_cons.mp hx with rfl | hx
      · exact h
      · exact htrans _ _ _ h (hb x hx)
    · rw [if_neg h]
      refine List.Pairwise.cons ?_ (ih hbs)
      intro x hx
      rcases List.mem_cons.mp ((insOrd_perm le a bs).mem_iff.mp hx) with rfl | hx
      · exact (htot x b).resolve_left h
      · exact hb x hx

theorem ordena_pairwise {le : α → α → Bool}
    (htrans : ∀ a b c, le a b = true → le b c = true → le a c = true)
    (htot : ∀ a b, le a b = true ∨ le b a = true) :
    ∀ l : List α, (ordena le l).Pairwise (fun x y => le x y = true)
  | [] => List.Pairwise.nil
  | a :: as => insOrd_pairwise htrans htot a
      (ordena_pairwise htrans htot as)

theorem sqlSort_perm (le : α → α → Bool) (l : List α) :
    List.Perm (sqlSort le l) l := by
  have h2 := (ordena_perm (tagLe le) (tagIdx 0 l)).map Prod.fst
  rwa [tagIdx_map_fst] at h2

theorem sqlSort_pairwise {le : α → α → Bool}
    (htrans : ∀ a b c, le a b = true → le b c = true → le a c = true)
    (htot : ∀ a b, le a b = true ∨ le b a = true)
    {R : α → α → Prop} {l : List α} (hR : l.Pairwise R) :
    (sqlSort le l).Pairwise
      (fun a b => le a b = true ∧ (le b a = true → R a b)) := by
  have hsorted := ordena_pairwise (tagLe_trans htrans) (tagLe_total htot)
    (tagIdx 0 l)
  have hnd : ((ordena (tagLe le) (tagIdx 0 l)).map Prod.snd).Nodup := by
    have hperm := (ordena_perm (tagLe le) (tagIdx 0 l)).map Prod.snd
    refine hperm.nodup_iff.mpr ?_
    exact List.pairwise_map.mpr
      ((tagIdx_snd_lt l 0).imp (fun h => Nat.ne_of_lt h))
  have hne := List.pairwise_map.mp hnd
  have hcomb := hsorted.and hne
  unfold sqlSort
  refine List.pairwise_map.mpr (hcomb.imp_of_mem ?_)
  intro p q hp hq hpq
  obtain ⟨h1, h2⟩ := hpq
  simp only [tagLe, Bool.and_eq_true, Bool.or_eq_true, Bool.not_eq_true',
    decide_eq_true_eq] at h1
  refine ⟨h1.1, ?_⟩
  intro hba
  rcases h1.2 with h | h
  · rw [hba] at h; cases h
  · exact tagIdx_mem_rel hR 0 p
      ((ordena_perm (tagLe le) (tagIdx 0 l)).mem_iff.mp hp) q
      ((ordena_perm (tagLe le) (tagIdx 0 l)).mem_iff.mp hq)
      (Nat.lt_of_le_of_ne h h2)

theorem sqlSort_mem {le : α → α → Bool} {l : List α} {a : α} :
    a ∈ sqlSort le l ↔ a ∈ l :=
  (sqlSort_perm le l).mem_iff

/-! Lemmas about sums and the category grouping. -/

theorem total_valores_eq_sum (rs : List Transacao) :
    total_valores rs = (rs.map (·.valor)).sum := by
  cases rs <;> simp [total_valores]

theorem sum_map_um (l : List α) :
    (l.map (fun _ => (1 : Nat))).sum = l.length := by
  induction l with
  | nil => rfl
  | cons a as ih => simp only [List.map_cons, List.sum_cons, ih,
      List.length_cons]; omega

theorem soma_particao {M : Type} [AddCommMonoid M] (f : Transacao → M) :
    ∀ cats : List String, cats.Nodup →
      ∀ rs : List Transacao, (∀ r ∈ rs, r.categoria ∈ cats) →
        (cats.map (fun c =>
            ((rs.filter (fun r => r.categoria = c)).map f).sum)).sum
          = (rs.map f).sum := by
  intro cats
  induction cats with
  | nil =>
    intro _ rs hrs
    cases rs with
    | nil => simp
    | cons a as =>
      exact absurd (hrs a (List.mem_cons_self a as)) (List.not_mem_nil _)
  | cons c cs ih =>
    intro hnd rs hrs
    rcases List.nodup_cons.mp hnd with ⟨hcn, hnd'⟩
    simp only [List.map_cons, List.sum_cons]
    have hperm := List.filter_append_perm (fun r => decide (r.categoria = c)) rs
    have hsum : (rs.map f).sum
        = ((rs.filter (fun r => decide (r.categoria = c))).map f).sum
          + ((rs.filter (fun r => !decide (r.categoria = c))).map f).sum := by
      have h1 := (hperm.map f).sum_eq
      rw [List.map_append, List.sum_append] at h1
      exact h1.symm
    rw [hsum]
    congr 1
    have hmem : ∀ r ∈ rs.filter (fun r => !decide (r.categoria = c)),
        r.categoria ∈ cs := by
      intro r hr
      have hne : ¬ (r.categoria = c) := by
        simpa using List.of_mem_filter hr
      rcases List.mem_cons.mp (hrs r (List.mem_of_mem_filter hr)) with h | h
      · exact absurd h hne
      · exact h
    rw [← ih hnd' (rs.filter (fun r => !decide (r.categoria = c))) hmem]
    refine congrArg List.sum (List.map_congr_left ?_)
    intro c' hc'
    have hcc : ¬ (c' = c) := fun h => hcn (h ▸ hc')
    refine congrArg List.sum (congrArg (List.map f) ?_)
    rw [List.filter_filter]
    refine List.filter_congr ?_
    intro a ha
    by_cases h : a.categoria = c'
    · have h2 : ¬ (a.categoria = c) := fun h2 => hcc (by rw [← h, h2])
      simp [h, h2, hcc]
    · simp [h]

theorem categoriasDistintas_nodup (rs : List Transacao) :
    (categoriasDistintas rs).Nodup :=
  ((ordena_perm _ _).symm).nodup (List.nodup_dedup _)

theorem categoriasDistintas_mem {rs : List Transacao} {c : String} :
    c ∈ categoriasDistintas rs ↔ c ∈ rs.map (·.categoria) := by
  unfold categoriasDistintas
  rw [(ordena_perm _ _).mem_iff, List.mem_dedup]

theorem categoriasDistintas_sorted (rs : List Transacao) :
    (categoriasDistintas rs).Pairwise (fun a b => a < b) := by
  have htrans : ∀ a b c : String,
      decide (a ≤ b) = true → decide (b ≤ c) = true →
        decide (a ≤ c) = true := by
    intro a b c h1 h2
    simp only [decide_eq_true_eq] at h1 h2 ⊢
    exact le_trans h1 h2
  have htot : ∀ a b : String,
      decide (a ≤ b) = true ∨ decide (b ≤ a) = true := by
    intro a b
    simpa only [decide_eq_true_eq] using le_total a b
  have hs := ordena_pairwise htrans htot ((rs.map (·.categoria)).dedup)
  have hnd := categoriasDistintas_nodup rs
  exact (hs.and hnd).imp
    (fun h => lt_of_le_of_ne (by simpa using h.1) h.2)

theorem por_categoria_perm (rs : List Transacao) :
    List.Perm (por_categoria rs)
      ((categoriasDistintas rs).map (fun c =>
        (c, ((rs.filter (fun r => r.categoria = c)).map (·.valor)).sum,
            (rs.filter (fun r => r.categoria = c)).length))) :=
  sqlSort_perm _ _

theorem por_categoria_bucket {rs : List Transacao} {b : String × ℚ × Nat}
    (hb : b ∈ por_categoria rs) :
    b.2.1 = ((rs.filter (fun r => r.categoria = b.1)).map (·.valor)).sum ∧
    b.2.2 = (rs.filter (fun r => r.categoria = b.1)).length := by
  have hmem := (por_categoria_perm rs).mem_iff.mp hb
  rcases List.mem_map.mp hmem with ⟨c, hc, rfl⟩
  exact ⟨rfl, rfl⟩

theorem por_categoria_cats (rs : List Transacao) :
    List.Perm ((por_categoria rs).map (fun b => b.1))
      ((rs.map (·.categoria)).dedup) := by
  have h2 : ((categoriasDistintas rs).map (fun c =>
      (c, ((rs.filter (fun r => r.categoria = c)).map (·.valor)).sum,
          (rs.filter (fun r => r.categoria = c)).length))).map (fun b => b.1)
      = categoriasDistintas rs := by
    rw [List.map_map]
    exact List.map_id' _
  have h1 := (por_categoria_perm rs).map (fun b => b.1)
  rw [h2] at h1
  exact h1.trans (ordena_perm _ _)

theorem por_categoria_counts (rs : List Transacao) :
    ((por_categoria rs).map (fun b => b.2.2)).sum = rs.length := by
  calc ((por_categoria rs).map (fun b => b.2.2)).sum
      = ((categoriasDistintas rs).map (fun c =>
          (rs.filter (fun r => r.categoria = c)).length)).sum := by
        rw [((por_categoria_perm rs).map (fun b => b.2.2)).sum_eq,
          List.map_map]
        rfl
    _ = ((categoriasDistintas rs).map (fun c =>
          ((rs.filter (fun r => r.categoria = c)).map
            (fun _ => (1 : Nat))).sum)).sum := by
        refine congrArg List.sum (List.map_congr_left ?_)
        intro c hc
        rw [sum_map_um]
    _ = (rs.map (fun _ => (1 : Nat))).sum :=
        soma_particao _ _ (categoriasDistintas_nodup rs) rs
          (fun r hr => categoriasDistintas_mem.mpr
            (List.mem_map_of_mem _ hr))
    _ = rs.length := sum_map_um rs

theorem por_categoria_totais (rs : List Transacao) :
    ((por_categoria rs).map (fun b => b.2.1)).sum = total_valores rs := by
  rw [total_valores_eq_sum]
  calc ((por_categoria rs).map (fun b => b.2.1)).sum
      = ((categoriasDistintas rs).map (fun c =>
          ((rs.filter (fun r => r.categoria = c)).map (·.valor)).sum)).sum := by
        rw [((por_categoria_perm rs).map (fun b => b.2.1)).sum_eq,
          List.map_map]
        rfl
    _ = (rs.map (·.valor)).sum :=
        soma_particao _ _ (categoriasDistintas_nodup rs) rs
          (fun r hr => categoriasDistintas_mem.mpr
            (List.mem_map_of_mem _ hr))

theorem por_categoria_ordenado (rs : List Transacao) :
    (por_categoria rs).Pairwise
      (fun a b => b.2.1 ≤ a.2.1 ∧ (a.2.1 ≤ b.2.1 → a.1 < b.1)) := by
  have htrans : ∀ a b c : String × ℚ × Nat,
      decide (b.2.1 ≤ a.2.1) = true → decide (c.2.1 ≤ b.2.1) = true →
        decide (c.2.1 ≤ a.2.1) = true := by
    intro a b c h1 h2
    simp only [decide_eq_true_eq] at h1 h2 ⊢
    exact le_trans h2 h1
  have htot : ∀ a b : String × ℚ × Nat,
      decide (b.2.1 ≤ a.2.1) = true ∨ decide (a.2.1 ≤ b.2.1) = true := by
    intro a b
    simpa only [decide_eq_true_eq] using le_total b.2.1 a.2.1
  have hRp : ((categoriasDistintas rs).map (fun c =>
      (c, ((rs.filter (fun r => r.categoria = c)).map (·.valor)).sum,
          (rs.filter (fun r => r.categoria = c)).length))).Pairwise
      (fun a b : String × ℚ × Nat => a.1 < b.1) :=
    List.pairwise_map.mpr (categoriasDistintas_sorted rs)
  have h := sqlSort_pairwise htrans htot hRp
  exact h.imp (fun hab =>
    ⟨by simpa using hab.1, fun hle => hab.2 (by simpa using hle)⟩)

/-! Lemmas about `runOps`, fault injection, and `importar_dados`. -/

theorem novasReceitas_map_projT : ∀ (n : Nat) (rs : List Transacao),
    (novasReceitas n rs).map projT = rs.map projT
  | _, [] => rfl
  | n, r :: rs => by
    simp [novasReceitas, projT, novasReceitas_map_projT (n + 1) rs]

theorem novasMetas_map_projM : ∀ (n : Nat) (ms : List Meta),
    (novasMetas n ms).map projM = ms.map projM
  | _, [] => rfl
  | n, m :: ms => by
    simp [novasMetas, projM, novasMetas_map_projM (n + 1) ms]

theorem novasReceitas_id_gt : ∀ (n : Nat) (rs : List Transacao),
    ∀ x ∈ novasReceitas n rs, n < x.id := by
  intro n rs
  induction rs generalizing n with
  | nil => intro x hx; simp [novasReceitas] at hx
  | cons r rs ih =>
    intro x hx
    simp only [novasReceitas, List.mem_cons] at hx
    rcases hx with rfl | hx
    · exact Nat.lt_succ_self n
    · exact Nat.lt_of_succ_lt (ih (n + 1) x hx)

theorem novasMetas_id_gt : ∀ (n : Nat) (ms : List Meta),
    ∀ x ∈ novasMetas n ms, n < x.id := by
  intro n ms
  induction ms generalizing n with
  | nil => intro x hx; simp [novasMetas] at hx
  | cons m ms ih =>
    intro x hx
    simp only [novasMetas, List.mem_cons] at hx
    rcases hx with rfl | hx
    · exact Nat.lt_succ_self n
    · exact Nat.lt_of_succ_lt (ih (n + 1) x hx)

theorem novasMetas_status : ∀ (n : Nat) (ms : List Meta),
    ∀ x ∈ novasMetas n ms, x.status = "ativa" := by
  intro n ms
  induction ms generalizing n with
  | nil => intro x hx; simp [novasMetas] at hx
  | cons m ms ih =>
    intro x hx
    simp only [novasMetas, List.mem_cons] at hx
    rcases hx with rfl | hx
    · rfl
    · exact ih (n + 1) x hx

theorem runOps_append (s : DBState) :
    ∀ l1 l2 : List ImportOp,
      runOps s (l1 ++ l2) = runOps (runOps s l1) l2 := by
  intro l1
  induction l1 generalizing s with
  | nil => intro l2; rfl
  | cons op ops ih => intro l2; exact ih (aplicarOp s op) l2

theorem runOpsFI_take :
    ∀ (ops : List ImportOp) (s : DBState) (k : Nat),
      runOpsFI s k ops = (decide (ops.length ≤ k), runOps s (ops.take k)) := by
  intro ops
  induction ops with
  | nil => intro s k; simp [runOpsFI, runOps]
  | cons op ops ih =>
    intro s k
    cases k with
    | zero => simp [runOpsFI, runOps]
    | succ k =>
      show runOpsFI (aplicarOp s op) k ops = _
      rw [ih]
      refine congrArg₂ Prod.mk ?_ rfl
      simp

theorem runOps_insReceitas : ∀ (rs : List Transacao) (s : DBState),
    runOps s (rs.map (fun r =>
        ImportOp.insReceita r.data r.descricao r.valor r.categoria))
      = { s with receitas := s.receitas ++ novasReceitas s.seqReceitas rs,
                 seqReceitas := s.seqReceitas + rs.length }
  | [], s => by simp [runOps, novasReceitas]
  | r :: rs, s => by
    simp only [List.map_cons, runOps, aplicarOp]
    rw [runOps_insReceitas rs]
    simp only [adicionar_receita, novasReceitas, List.length_cons,
      DBState.mk.injEq]
    refine ⟨by simp, trivial, trivial, by omega, trivial, trivial⟩

theorem runOps_insDespesas : ∀ (rs : List Transacao) (s : DBState),
    runOps s (rs.map (fun r =>
        ImportOp.insDespesa r.data r.descricao r.valor r.categoria))
      = { s with despesas := s.despesas ++ novasReceitas s.seqDespesas rs,
                 seqDespesas := s.seqDespesas + rs.length }
  | [], s => by simp [runOps, novasReceitas]
  | r :: rs, s => by
    simp only [List.map_cons, runOps, aplicarOp]
    rw [runOps_insDespesas rs]
    simp only [adicionar_despesa, novasReceitas, List.length_cons,
      DBState.mk.injEq]
    refine ⟨trivial, by simp, trivial, trivial, by omega, trivial⟩

theorem runOps_insMetas : ∀ (ms : List Meta) (s : DBState),
    runOps s (ms.map (fun m =>
        ImportOp.insMeta m.data_limite m.descricao m.valor_meta m.categoria))
      = { s with metas := s.metas ++ novasMetas s.seqMetas ms,
                 seqMetas := s.seqMetas + ms.length }
  | [], s => by simp [runOps, novasMetas]
  | m :: ms, s => by
    simp only [List.map_cons, runOps, aplicarOp]
    rw [runOps_insMetas ms]
    simp only [adicionar_meta, novasMetas, List.length_cons,
      DBState.mk.injEq]
    refine ⟨trivial, trivial, by simp, trivial, trivial, by omega⟩

theorem importar_dados_eq (s : DBState)
    (dados : List Transacao × List Transacao × List Meta) :
    (importar_dados s dados).2
      = { receitas := novasReceitas s.seqReceitas dados.1,
          despesas := novasReceitas s.seqDespesas dados.2.1,
          metas := novasMetas s.seqMetas dados.2.2,
          seqReceitas := s.seqReceitas + dados.1.length,
          seqDespesas := s.seqDespesas + dados.2.1.length,
          seqMetas := s.seqMetas + dados.2.2.length } := by
  obtain ⟨recs, desps, mets⟩ := dados
  show runOps s (importPlan (recs, desps, mets)) = _
  unfold importPlan
  rw [runOps_append, runOps_append, runOps_append]
  have hA : runOps s
      [ImportOp.delReceitas, ImportOp.delDespesas, ImportOp.delMetas]
      = { s with receitas := [], despesas := [], metas := [] } := rfl
  rw [hA, runOps_insReceitas, runOps_insDespesas, runOps_insMetas]
  simp

theorem obter_receitas_none_perm (s : DBState) :
    List.Perm (obter_receitas s none none none) s.receitas := by
  have h : s.receitas.filter (fun r =>
      filtroData none none r.data &&
      (match (none : Option String) with
       | some c => decide (r.categoria = c)
       | none => true)) = s.receitas := by
    simp [filtroData]
  unfold obter_receitas
  rw [h]
  exact sqlSort_perm _ _

theorem obter_despesas_none_perm (s : DBState) :
    List.Perm (obter_despesas s none none none) s.despesas := by
  have h : s.despesas.filter (fun r =>
      filtroData none none r.data &&
      (match (none : Option String) with
       | some c => decide (r.categoria = c)
       | none => true)) = s.despesas := by
    simp [filtroData]
  unfold obter_despesas
  rw [h]
  exact sqlSort_perm _ _

theorem obter_metas_none_perm (s : DBState) :
    List.Perm (obter_metas s none none) s.metas := by
  have h : s.metas.filter (fun m =>
      (match (none : Option String) with
       | some st => decide (m.status = st)
       | none => true) &&
      (match (none : Option String) with
       | some c => decide (m.categoria = c)
       | none => true)) = s.metas := by
    simp
  unfold obter_metas
  rw [h]
  exact sqlSort_perm _ _

/-- C3: for every goal, the saved amount (`economias`) equals the sum of
income amounts dated on or before the goal's date minus the sum of
expense amounts dated on or before it; `progresso` is `0` when the
target amount is non-positive, and otherwise
`min (saved / target * 100) 100` — capped above at `100` (fourth
conjunct) with no lower floor, so it is negative whenever `saved` is
negative (fifth conjunct). -/
theorem C3_progresso_meta (rec desp : List Transacao) (d : Int) (v : ℚ) :
    economias rec desp d
      = ((rec.filter (fun r => decide (r.data ≤ d))).map (·.valor)).sum
        - ((desp.filter (fun r => decide (r.data ≤ d))).map (·.valor)).sum
  ∧ (v ≤ 0 → progresso rec desp d v = 0)
  ∧ (0 < v → progresso rec desp d v
        = min (economias rec desp d / v * 100) 100)
  ∧ (0 < v → progresso rec desp d v ≤ 100)
  ∧ (0 < v → economias rec desp d < 0 → progresso rec desp d v < 0) := by
  refine ⟨?_, ?_, ?_, ?_, ?_⟩
  · unfold economias
    rw [total_valores_eq_sum, total_valores_eq_sum]
  · intro hv
    unfold progresso
    rw [if_neg (not_lt.mpr hv)]
  · intro hv
    unfold progresso
    rw [if_pos hv]
  · intro hv
    unfold progresso
    rw [if_pos hv]
    exact min_le_right _ _
  · intro hv he
    unfold progresso
    rw [if_pos hv]
    have hneg : economias rec desp d / v * 100 < 0 :=
      mul_neg_of_neg_of_pos (div_neg_of_neg_of_pos he hv) (by norm_num)
    calc min (economias rec desp d / v * 100) 100
        ≤ economias rec desp d / v * 100 := min_le_left _ _
      _ < 0 := hneg

/-- Witness for C3 at the spec's §8 scenarios: progress 95 for the
3800-saved-of-4000 goal, capped 100 for the 1000 target funded with
5000, and negative progress when only expenses precede the date. -/
theorem C3_progresso_meta_witness :
    progresso [rExemplo] [dExemplo] 60 4000 = 95
  ∧ progresso [rExemplo] [] 60 1000 = 100
  ∧ progresso [] [dExemplo] 60 1000 < 0 := by
  refine ⟨?_, ?_, ?_⟩
  · rw [(C3_progresso_meta [rExemplo] [dExemplo] 60 4000).2.2.1 (by norm_num)]
    norm_num [economias, total_valores, rExemplo, dExemplo, min_def]
  · rw [(C3_progresso_meta [rExemplo] [] 60 1000).2.2.1 (by norm_num)]
    norm_num [economias, total_valores, rExemplo, min_def]
  · exact (C3_progresso_meta [] [dExemplo] 60 1000).2.2.2.2 (by norm_num)
      (by norm_num [economias, total_valores, dExemplo])

/-- C5: the expense ratio is `0` whenever the income total is `0` (the
division-by-zero guard — the code tests `total_receitas > 0` and reports
`0` otherwise), and equals `expense_total / income_total * 100` whenever
the income total is strictly positive. -/
theorem C5_percentual_despesas (x r : ℚ) :
    percentual_despesas x 0 = 0
  ∧ (0 < r → percentual_despesas x r = x / r * 100) := by
  constructor
  · unfold percentual_despesas
    rw [if_neg (lt_irrefl 0)]
  · intro hr
    unfold percentual_despesas
    rw [if_pos hr]

/-- Witness for C5: ratio `0` for zero income at expense total 7, and
the spec's §8 scenario `1200 / 5000 → 24`. -/
theorem C5_percentual_despesas_witness :
    percentual_despesas 7 0 = 0 ∧ percentual_despesas 1200 5000 = 24 := by
  constructor
  · exact (C5_percentual_despesas 7 0).1
  · rw [(C5_percentual_despesas 1200 5000).2 (by norm_num)]
    norm_num

/-- C8: `total` of the empty sequence is `0` (the guard makes it a total
function, it cannot raise), `total` equals the sum of the `valor`
fields, and it is invariant under any permutation of the input. -/
theorem C8_total_valores (rs rs' : List Transacao) :
    total_valores [] = 0
  ∧ total_valores rs = (rs.map (·.valor)).sum
  ∧ (List.Perm rs rs' → total_valores rs = total_valores rs') := by
  refine ⟨rfl, total_valores_eq_sum rs, ?_⟩
  intro hperm
  rw [total_valores_eq_sum, total_valores_eq_sum]
  exact (hperm.map (·.valor)).sum_eq

/-- Witness for C8 on a two-element list and its transposition. -/
theorem C8_total_valores_witness :
    total_valores [rExemplo, dExemplo] = total_valores [dExemplo, rExemplo] :=
  (C8_total_valores [rExemplo, dExemplo] [dExemplo, rExemplo]).2.2
    (List.Perm.swap dExemplo rExemplo [])

/-- C9: the mean of an empty record sequence is the defined, documented
NaN sentinel of pandas (modelled `none`), produced without any division
fault — `media_valores` is a total function returning `none` exactly on
empty input and the arithmetic mean otherwise. -/
theorem C9_media_valores (rs : List Transacao) :
    media_valores [] = none
  ∧ (rs ≠ [] → media_valores rs
      = some ((rs.map (·.valor)).sum / rs.length)) := by
  constructor
  · rfl
  · intro h
    have h2 : rs.isEmpty = false := by
      cases rs with
      | nil => exact absurd rfl h
      | cons a as => rfl
    unfold media_valores
    rw [h2]
    simp

/-- Witness for C9: the mean of one 5000 income row is 5000. -/
theorem C9_media_valores_witness : media_valores [rExemplo] = some 5000 := by
  rw [(C9_media_valores [rExemplo]).2 (by simp)]
  norm_num [rExemplo]

/-- Counterexample to C1 as stated: an add whose description is empty
and whose amount is negative does not fail — no `ValidationError` exists
anywhere in `src/database.py` and `adicionar_receita`/`adicionar_meta`
check nothing — and it does insert: adding `("", -5)` to the empty
database stores one row. -/
theorem C1_contraexemplo :
    ("" : String).length = 0
  ∧ (-5 : ℚ) < 0
  ∧ (adicionar_receita sVazio 0 "" (-5) "X").2.receitas
      = [⟨1, 0, "", -5, "X"⟩]
  ∧ (adicionar_meta sVazio 0 "" (-5) "X").2.metas
      = [⟨1, 0, "", -5, "X", "ativa"⟩] :=
  ⟨rfl, by norm_num, rfl, rfl⟩

/-- C1 (amended): the add operations perform no validation — for every
input, including an empty description or a non-positive amount, they
insert exactly one record and return a fresh unique id (the bumped
AUTOINCREMENT counter, distinct from every stored id) and preserve the
state invariant. Shown for `adicionar_receita` and `adicionar_meta`
(the claim's two source symbols). -/
theorem C1_adicionar_sem_validacao (s : DBState) (d : Int) (de : String)
    (v : ℚ) (c : String) (hInv : InvEstado s) :
    (adicionar_receita s d de v c).1 = s.seqReceitas + 1
  ∧ (∀ r ∈ s.receitas, r.id ≠ (adicionar_receita s d de v c).1)
  ∧ (adicionar_receita s d de v c).2.receitas
      = s.receitas ++ [⟨s.seqReceitas + 1, d, de, v, c⟩]
  ∧ InvEstado (adicionar_receita s d de v c).2
  ∧ (adicionar_meta s d de v c).1 = s.seqMetas + 1
  ∧ (∀ m ∈ s.metas, m.id ≠ (adicionar_meta s d de v c).1)
  ∧ (adicionar_meta s d de v c).2.metas
      = s.metas ++ [⟨s.seqMetas + 1, d, de, v, c, "ativa"⟩]
  ∧ InvEstado (adicionar_meta s d de v c).2 := by
  obtain ⟨hr1, hr2, hd1, hd2, hm1, hm2⟩ := hInv
  refine ⟨rfl, ?_, rfl, ⟨?_, ?_, hd1, hd2, hm1, hm2⟩, rfl, ?_,
    rfl, ⟨hr1, hr2, hd1, hd2, ?_, ?_⟩⟩
  · intro r hr
    exact Nat.ne_of_lt (Nat.lt_succ_of_le (hr2 r hr))
  · show (s.receitas ++
        [(⟨s.seqReceitas + 1, d, de, v, c⟩ : Transacao)]).Pairwise
        (fun a b => a.id < b.id)
    rw [List.pairwise_append]
    refine ⟨hr1, List.pairwise_singleton _ _, ?_⟩
    intro a ha b hb
    rw [List.mem_singleton] at hb
    subst hb
    exact Nat.lt_succ_of_le (hr2 a ha)
  · intro r hr
    rcases List.mem_append.mp hr with h | h
    · exact Nat.le_succ_of_le (hr2 r h)
    · rw [List.mem_singleton] at h
      subst h
      exact Nat.le_refl _
  · intro m hm
    exact Nat.ne_of_lt (Nat.lt_succ_of_le (hm2 m hm))
  · show (s.metas ++
        [(⟨s.seqMetas + 1, d, de, v, c, "ativa"⟩ : Meta)]).Pairwise
        (fun a b => a.id < b.id)
    rw [List.pairwise_append]
    refine ⟨hm1, List.pairwise_singleton _ _, ?_⟩
    intro a ha b hb
    rw [List.mem_singleton] at hb
    subst hb
    exact Nat.lt_succ_of_le (hm2 a ha)
  · intro m hm
    rcases List.mem_append.mp hm with h | h
    · exact Nat.le_succ_of_le (hm2 m h)
    · rw [List.mem_singleton] at h
      subst h
      exact Nat.le_refl _

/-- Witness for C1 (amended) at `sExemplo` with an empty description and
a negative amount: the insert succeeds, returns the fresh id 2, and
appends the row. -/
theorem C1_adicionar_sem_validacao_witness :
    (adicionar_receita sExemplo 5 "" (-7) "X").1 = 2
  ∧ (adicionar_receita sExemplo 5 "" (-7) "X").2.receitas
      = [rExemplo, ⟨2, 5, "", -7, "X"⟩]
  ∧ InvEstado (adicionar_receita sExemplo 5 "" (-7) "X").2 := by
  have h := C1_adicionar_sem_validacao sExemplo 5 "" (-7) "X" (by decide)
  exact ⟨h.1, h.2.2.1, h.2.2.2.1⟩

/-- Counterexample to C2 as stated: id 99 is absent from `sExemplo`'s
income table, yet `excluir_receita` and `atualizar_receita` both report
success (`True`); no `NotFoundError` exists in `src/database.py`, and
`DELETE`/`UPDATE` statements matching zero rows raise nothing. -/
theorem C2_contraexemplo :
    99 ∉ sExemplo.receitas.map (fun r => r.id)
  ∧ (excluir_receita sExemplo 99).1 = true
  ∧ (atualizar_receita sExemplo 99 0 "x" 1 "y").1 = true :=
  ⟨by decide, rfl, rfl⟩

/-- C2 (amended): deleting or updating an absent id is not an error —
`excluir_receita` always returns `True` (first conjunct) and on an
absent id leaves the state unchanged (second); `atualizar_receita` on an
absent id also returns `True` with the state unchanged (third). After a
delete, no `obter_receitas` result under any filters contains the
deleted id (fourth), and a second delete of the same id again returns
`True` and changes nothing rather than failing with `NotFoundError`
(fifth). -/
theorem C2_excluir_atualizar (s : DBState) (rid : Nat) :
    (excluir_receita s rid).1 = true
  ∧ (rid ∉ s.receitas.map (fun r => r.id) → (excluir_receita s rid).2 = s)
  ∧ (rid ∉ s.receitas.map (fun r => r.id) →
      ∀ (d : Int) (de : String) (v : ℚ) (c : String),
        atualizar_receita s rid d de v c = (true, s))
  ∧ (∀ (di df : Option Int) (cat : Option String),
      ∀ r ∈ obter_receitas (excluir_receita s rid).2 di df cat, r.id ≠ rid)
  ∧ excluir_receita (excluir_receita s rid).2 rid
      = (true, (excluir_receita s rid).2) := by
  refine ⟨rfl, ?_, ?_, ?_, ?_⟩
  · intro hmem
    have hf : s.receitas.filter (fun r => r.id ≠ rid) = s.receitas := by
      rw [List.filter_eq_self]
      intro a ha
      simp only [ne_eq, decide_not, Bool.not_eq_true', decide_eq_false_iff_not]
      exact fun h => hmem (h ▸ List.mem_map_of_mem (fun r => r.id) ha)
    simp only [excluir_receita]
    rw [hf]
  · intro hmem d de v c
    have hm : s.receitas.map (fun r =>
        if r.id = rid then
          { r with data := d, descricao := de, valor := v, categoria := c }
        else r) = s.receitas := by
      calc s.receitas.map (fun r =>
            if r.id = rid then
              { r with data := d, descricao := de, valor := v, categoria := c }
            else r)
          = s.receitas.map (fun a => a) :=
            List.map_congr_left (fun a ha =>
              if_neg (fun h : a.id = rid =>
                hmem (h ▸ List.mem_map_of_mem (fun r => r.id) ha)))
        _ = s.receitas := List.map_id' _
    simp only [atualizar_receita]
    rw [hm]
  · intro di df cat r hr
    have h1 := sqlSort_mem.mp hr
    have h2 := List.mem_of_mem_filter h1
    have h3 := List.of_mem_filter h2
    simpa using h3
  · have hff : (s.receitas.filter (fun r => r.id ≠ rid)).filter
        (fun r => r.id ≠ rid) = s.receitas.filter (fun r => r.id ≠ rid) := by
      rw [List.filter_filter]
      exact List.filter_congr (fun a ha => Bool.and_self _)
    simp only [excluir_receita]
    rw [hff]

/-- Witness for C2 (amended) at `sExemplo` with the absent id 99: both
operations report success and change nothing. -/
theorem C2_excluir_atualizar_witness :
    (excluir_receita sExemplo 99).2 = sExemplo
  ∧ atualizar_receita sExemplo 99 0 "x" 1 "y" = (true, sExemplo) := by
  have h := C2_excluir_atualizar sExemplo 99
  exact ⟨h.2.1 (by decide), h.2.2.1 (by decide) 0 "x" 1 "y"⟩

/-- C6: the category grouping (the shared `GROUP BY categoria ORDER BY
total DESC` query of `obter_despesas_por_categoria` and
`obter_receitas_por_categoria`, which apply it to the date-filtered
table — first two conjuncts) produces one bucket per distinct category
(third conjunct), each bucket holding that category's amount sum and row
count (fourth), hence bucket counts sum to the sequence length and
bucket totals sum to the sequence total (fifth, sixth); buckets are
ordered by descending total with ties broken by ascending category name
(seventh). -/
theorem C6_por_categoria (rs : List Transacao) (s : DBState)
    (di df : Option Int) :
    obter_despesas_por_categoria s di df
      = por_categoria (s.despesas.filter (fun r => filtroData di df r.data))
  ∧ obter_receitas_por_categoria s di df
      = por_categoria (s.receitas.filter (fun r => filtroData di df r.data))
  ∧ List.Perm ((por_categoria rs).map (fun b => b.1))
      ((rs.map (·.categoria)).dedup)
  ∧ (∀ b ∈ por_categoria rs,
      b.2.1 = ((rs.filter (fun r => r.categoria = b.1)).map (·.valor)).sum
      ∧ b.2.2 = (rs.filter (fun r => r.categoria = b.1)).length)
  ∧ ((por_categoria rs).map (fun b => b.2.2)).sum = rs.length
  ∧ ((por_categoria rs).map (fun b => b.2.1)).sum = total_valores rs
  ∧ (por_categoria rs).Pairwise
      (fun a b => b.2.1 ≤ a.2.1 ∧ (a.2.1 ≤ b.2.1 → a.1 < b.1)) :=
  ⟨rfl, rfl, por_categoria_cats rs, fun _ hb => por_categoria_bucket hb,
   por_categoria_counts rs, por_categoria_totais rs,
   por_categoria_ordenado rs⟩

/-- Witness for C6 on a two-record list whose two categories have equal
totals: counts sum to the length and the tie is broken by ascending
category name. -/
theorem C6_por_categoria_witness :
    ((por_categoria [⟨1, 0, "x", 5, "B"⟩, ⟨2, 0, "y", 5, "A"⟩]).map
        (fun b => b.2.2)).sum = 2
  ∧ (por_categoria [⟨1, 0, "x", 5, "B"⟩, ⟨2, 0, "y", 5, "A"⟩]).Pairwise
      (fun a b => b.2.1 ≤ a.2.1 ∧ (a.2.1 ≤ b.2.1 → a.1 < b.1)) := by
  have h := C6_por_categoria [⟨1, 0, "x", 5, "B"⟩, ⟨2, 0, "y", 5, "A"⟩]
    sVazio none none
  exact ⟨h.2.2.2.2.1, h.2.2.2.2.2.2⟩

/-- C7: on any state whose tables are in insertion order with bounded
ids (`InvEstado`, true of every reachable state), every `obter_receitas`
and `obter_despesas` result is ordered by date descending and every
`obter_metas` result by target date ascending, ties on the sort key
broken by insertion order, that is ascending id. -/
theorem C7_ordenacao (s : DBState) (hInv : InvEstado s)
    (di df : Option Int) (cat st : Option String) :
    (obter_receitas s di df cat).Pairwise
      (fun a b => b.data ≤ a.data ∧ (a.data ≤ b.data → a.id < b.id))
  ∧ (obter_despesas s di df cat).Pairwise
      (fun a b => b.data ≤ a.data ∧ (a.data ≤ b.data → a.id < b.id))
  ∧ (obter_metas s st cat).Pairwise
      (fun a b => a.data_limite ≤ b.data_limite ∧
        (b.data_limite ≤ a.data_limite → a.id < b.id)) := by
  obtain ⟨hr1, _, hd1, _, hm1, _⟩ := hInv
  have htransT : ∀ a b c : Transacao,
      decide (b.data ≤ a.data) = true → decide (c.data ≤ b.data) = true →
        decide (c.data ≤ a.data) = true := by
    intro a b c h1 h2
    simp only [decide_eq_true_eq] at h1 h2 ⊢
    exact le_trans h2 h1
  have htotT : ∀ a b : Transacao,
      decide (b.data ≤ a.data) = true ∨ decide (a.data ≤ b.data) = true := by
    intro a b
    simpa only [decide_eq_true_eq] using le_total b.data a.data
  have htransM : ∀ a b c : Meta,
      decide (a.data_limite ≤ b.data_limite) = true →
      decide (b.data_limite ≤ c.data_limite) = true →
        decide (a.data_limite ≤ c.data_limite) = true := by
    intro a b c h1 h2
    simp only [decide_eq_true_eq] at h1 h2 ⊢
    exact le_trans h1 h2
  have htotM : ∀ a b : Meta,
      decide (a.data_limite ≤ b.data_limite) = true ∨
      decide (b.data_limite ≤ a.data_limite) = true := by
    intro a b
    simpa only [decide_eq_true_eq] using le_total a.data_limite b.data_limite
  refine ⟨?_, ?_, ?_⟩
  · have h := sqlSort_pairwise htransT htotT
      (hr1.filter (fun r => filtroData di df r.data &&
        (match cat with | some c => decide (r.categoria = c) | none => true)))
    exact h.imp (fun hab => ⟨by simpa using hab.1,
      fun hle => hab.2 (by simpa using hle)⟩)
  · have h := sqlSort_pairwise htransT htotT
      (hd1.filter (fun r => filtroData di df r.data &&
        (match cat with | some c => decide (r.categoria = c) | none => true)))
    exact h.imp (fun hab => ⟨by simpa using hab.1,
      fun hle => hab.2 (by simpa using hle)⟩)
  · have h := sqlSort_pairwise htransM htotM
      (hm1.filter (fun m =>
        (match st with | some v => decide (m.status = v) | none => true) &&
        (match cat with | some c => decide (m.categoria = c) | none => true)))
    exact h.imp (fun hab => ⟨by simpa using hab.1,
      fun hle => hab.2 (by simpa using hle)⟩)

/-- Witness for C7 on a state with two income rows sharing one date (the
tie resolved by ascending id) and two goals sharing one target date. -/
theorem C7_ordenacao_witness :
    (obter_receitas ⟨[⟨1, 5, "a", 1, "c"⟩, ⟨2, 5, "b", 2, "c"⟩], [],
        [⟨1, 9, "m", 1, "v", "ativa"⟩, ⟨2, 9, "n", 2, "v", "ativa"⟩],
        2, 0, 2⟩ none none none).Pairwise
      (fun a b => b.data ≤ a.data ∧ (a.data ≤ b.data → a.id < b.id))
  ∧ (obter_metas ⟨[⟨1, 5, "a", 1, "c"⟩, ⟨2, 5, "b", 2, "c"⟩], [],
        [⟨1, 9, "m", 1, "v", "ativa"⟩, ⟨2, 9, "n", 2, "v", "ativa"⟩],
        2, 0, 2⟩ none none).Pairwise
      (fun a b => a.data_limite ≤ b.data_limite ∧
        (b.data_limite ≤ a.data_limite → a.id < b.id)) := by
  have h := C7_ordenacao ⟨[⟨1, 5, "a", 1, "c"⟩, ⟨2, 5, "b", 2, "c"⟩], [],
      [⟨1, 9, "m", 1, "v", "ativa"⟩, ⟨2, 9, "n", 2, "v", "ativa"⟩],
      2, 0, 2⟩ (by decide) none none none none
  exact ⟨h.1, h.2.2⟩

/-- Counterexample to C4 as stated: a storage error at statement
position 1 of `importar_dados`'s plan (the `DELETE FROM despesas`)
leaves the persisted state different from the state before the call —
the already committed `DELETE FROM receitas` has erased the income
table — while the method reports `False`. Nothing rolls the first
delete back, because every statement runs and commits in its own
connection. -/
theorem C4_contraexemplo :
    (importar_dadosFI 1 sExemplo ([], [], [])).1 = false
  ∧ (importar_dadosFI 1 sExemplo ([], [], [])).2 ≠ sExemplo
  ∧ (importar_dadosFI 1 sExemplo ([], [], [])).2.receitas = [] := by
  refine ⟨rfl, ?_, rfl⟩
  decide

/-- C4 (amended): `importar_dados` is not all-or-nothing. A storage
error at statement position `k` of its plan makes the call report
failure exactly when `k` falls inside the plan, and leaves persisted
precisely the effects of the `k` statements already committed before
the failing one (`runOps` of the plan's `k`-prefix) — in particular a
failure at `k = 0` leaves the prior state unchanged (single statements
are atomic), while any later failure can leave a partial state, e.g.
with already-deleted tables. Validation failures cannot partially apply
a mutation only because no validation exists at all (see C1). -/
theorem C4_importar_parcial (s : DBState)
    (dados : List Transacao × List Transacao × List Meta) (k : Nat) :
    importar_dadosFI k s dados
      = (decide ((importPlan dados).length ≤ k),
         runOps s ((importPlan dados).take k)) :=
  runOpsFI_take (importPlan dados) s k

/-- C10: `importar_dados` clears the three tables and re-inserts every
dataset row through the add operations; round-tripping `exportar_dados`
through `importar_dados` therefore preserves the date, description,
amount and category columns of all three tables as multisets (first
three conjuncts), while every re-imported goal gets the default status
`'ativa'` (fourth conjunct) and every re-imported row of any kind gets
a fresh id never equal to an id stored before the import (last three
conjuncts) — old ids are bounded by the AUTOINCREMENT counters, which
`DELETE FROM` does not reset. -/
theorem C10_roundtrip (s : DBState) (hInv : InvEstado s) :
    List.Perm
      ((importar_dados s (exportar_dados s)).2.receitas.map projT)
      (s.receitas.map projT)
  ∧ List.Perm
      ((importar_dados s (exportar_dados s)).2.despesas.map projT)
      (s.despesas.map projT)
  ∧ List.Perm
      ((importar_dados s (exportar_dados s)).2.metas.map projM)
      (s.metas.map projM)
  ∧ (∀ m ∈ (importar_dados s (exportar_dados s)).2.metas,
      m.status = "ativa")
  ∧ (∀ m' ∈ (importar_dados s (exportar_dados s)).2.metas,
      ∀ m ∈ s.metas, m'.id ≠ m.id)
  ∧ (∀ r' ∈ (importar_dados s (exportar_dados s)).2.receitas,
      ∀ r ∈ s.receitas, r'.id ≠ r.id)
  ∧ (∀ r' ∈ (importar_dados s (exportar_dados s)).2.despesas,
      ∀ r ∈ s.despesas, r'.id ≠ r.id) := by
  obtain ⟨_, hr2, _, hd2, _, hm2⟩ := hInv
  have heq := importar_dados_eq s (exportar_dados s)
  have hrec : (importar_dados s (exportar_dados s)).2.receitas
      = novasReceitas s.seqReceitas (obter_receitas s none none none) := by
    rw [heq]
    rfl
  have hdes : (importar_dados s (exportar_dados s)).2.despesas
      = novasReceitas s.seqDespesas (obter_despesas s none none none) := by
    rw [heq]
    rfl
  have hmet : (importar_dados s (exportar_dados s)).2.metas
      = novasMetas s.seqMetas (obter_metas s none none) := by
    rw [heq]
    rfl
  refine ⟨?_, ?_, ?_, ?_, ?_, ?_, ?_⟩
  · rw [hrec, novasReceitas_map_projT]
    exact (obter_receitas_none_perm s).map projT
  · rw [hdes, novasReceitas_map_projT]
    exact (obter_despesas_none_perm s).map projT
  · rw [hmet, novasMetas_map_projM]
    exact (obter_metas_none_perm s).map projM
  · rw [hmet]
    exact novasMetas_status _ _
  · rw [hmet]
    intro m' hm' m hm
    exact Nat.ne_of_gt (Nat.lt_of_le_of_lt (hm2 m hm)
      (novasMetas_id_gt _ _ m' hm'))
  · rw [hrec]
    intro r' hr' r hr
    exact Nat.ne_of_gt (Nat.lt_of_le_of_lt (hr2 r hr)
      (novasReceitas_id_gt _ _ r' hr'))
  · rw [hdes]
    intro r' hr' r hr
    exact Nat.ne_of_gt (Nat.lt_of_le_of_lt (hd2 r hr)
      (novasReceitas_id_gt _ _ r' hr'))

/-- Witness for C10 at `sExemplo`, whose one goal has the non-default
status `'concluida'`: after the round trip its four data columns
survive but its status is reset to `'ativa'`. -/
theorem C10_roundtrip_witness :
    List.Perm
      ((importar_dados sExemplo (exportar_dados sExemplo)).2.metas.map projM)
      (sExemplo.metas.map projM)
  ∧ (∀ m ∈ (importar_dados sExemplo (exportar_dados sExemplo)).2.metas,
      m.status = "ativa") := by
  have h := C10_roundtrip sExemplo (by decide)
  exact ⟨h.2.2.1, h.2.2.2.1⟩
